import Mathlib

/-
Verification development for a streaming audio proxy server.

The repository contains several iterations of the same Express server that
turns YouTube video identifiers into a transcoded audio stream by spawning
a yt-dlp (fetcher) process and an ffmpeg (transcoder) process.  We embed
the state-manipulating fragments of each variant as pure Lean functions:

  * `ServerJs`  — src/server.js (single source, module-level handles)
  * `MultiFile` — src/multifile.js, first document (multi-source,
                  download-then-concat with Promise.all)
  * `PartOne`   — src/unnamed/part_001 (reconnect/backoff and the
                  backpressure data handler)
  * `PartTwo`   — src/unnamed/part_002 (p-limit(1), on-disk cache,
                  list-parameterised cleanup)

Process handles are modelled as process identifiers (`Nat`); sending
SIGTERM to a process is recorded as an event in an output list; the file
system is modelled as a list of existing file names, or as a partial map
from paths to byte lists where file contents matter.
-/

namespace ServerJs

/-- State of the two module-level handle slots of src/server.js
(`let ytDlpProcess = null; let ffmpegProcess = null`, lines 6-7),
each holding the pid of the spawned process when non-null. -/
structure Handles where
  ytDlpProcess : Option Nat
  ffmpegProcess : Option Nat
deriving DecidableEq

/-- Embedding of `cleanup` (src/server.js lines 10-23): for each non-null
handle it removes the stream listeners, sends SIGTERM (recorded in the
returned kill list) and nulls the slot. -/
def cleanup (s : Handles) : Handles × List Nat :=
  let yt : Option Nat × List Nat :=
    match s.ytDlpProcess with
    | some p => (none, [p])
    | none => (none, [])
  let ff : Option Nat × List Nat :=
    match s.ffmpegProcess with
    | some p => (none, [p])
    | none => (none, [])
  (⟨yt.1, ff.1⟩, yt.2 ++ ff.2)

/-- A module-level server state for the handler of `GET /audio`
(src/server.js lines 26-57): a fresh-pid counter and the two slots, each
remembering the pid stored there and the request (job) that spawned it. -/
structure Srv where
  nextPid : Nat
  ytDlpSlot : Option (Nat × Nat)
  ffmpegSlot : Option (Nat × Nat)
deriving DecidableEq

/-- The initial module state: both slots null. -/
def srvInit : Srv := ⟨0, none, none⟩

/-- Embedding of the body of `app.get("/audio")` after validation
(src/server.js lines 35-53): spawns one yt-dlp and one ffmpeg process and
assigns both module-level slots, overwriting whatever was there. -/
def audioSpawn (job : Nat) (s : Srv) : Srv :=
  { nextPid := s.nextPid + 2
    ytDlpSlot := some (s.nextPid, job)
    ffmpegSlot := some (s.nextPid + 1, job) }

/-- The kills performed by `cleanup` when fired at module state `s`
(by any of the event handlers of any pending request): it signals the
processes currently referenced by the module-level slots, whatever job
spawned them.  Returns the `(pid, spawning job)` pairs signalled. -/
def cleanupSlots (s : Srv) : Srv × List (Nat × Nat) :=
  let yt : Option (Nat × Nat) × List (Nat × Nat) :=
    match s.ytDlpSlot with
    | some pj => (none, [pj])
    | none => (none, [])
  let ff : Option (Nat × Nat) × List (Nat × Nat) :=
    match s.ffmpegSlot with
    | some pj => (none, [pj])
    | none => (none, [])
  (⟨s.nextPid, yt.1, ff.1⟩, yt.2 ++ ff.2)

/-- An HTTP request to `GET /audio` as the handler sees it: the optional
`videoId` and `format` query parameters. -/
structure Req where
  videoId : Option String
  format : Option String
deriving DecidableEq

/-- Outcome of the `/audio` handler: HTTP status, the Content-Type header
set (if any) and how many fetcher/transcoder processes were spawned. -/
structure AudioResp where
  status : Nat
  contentType : Option String
  ytSpawns : Nat
  ffSpawns : Nat
deriving DecidableEq

/-- Embedding of `app.get("/audio")` (src/server.js lines 26-57): a
missing or empty `videoId` (JavaScript `!videoId`, the empty string being
falsy) yields 400 and no spawns; otherwise one yt-dlp and one ffmpeg
process are spawned and the Content-Type header is set to the literal
"audio/mpeg" (line 56); the `format` query parameter is never read. -/
def audioHandler (req : Req) : AudioResp :=
  match req.videoId with
  | none => { status := 400, contentType := none, ytSpawns := 0, ffSpawns := 0 }
  | some v =>
    if v = "" then { status := 400, contentType := none, ytSpawns := 0, ffSpawns := 0 }
    else { status := 200, contentType := some "audio/mpeg", ytSpawns := 1, ffSpawns := 1 }

/-- A process handle together with the liveness of the underlying OS
process: `exited = true` means the process has terminated even though the
module-level variable still references it. -/
structure ProcInfo where
  pid : Nat
  exited : Bool
deriving DecidableEq

/-- The JSON body and status of the `/health` response. -/
structure HealthResp where
  httpStatus : Nat
  status : String
  ytDlp : String
  ffmpeg : String
deriving DecidableEq

/-- Embedding of `app.get("/health")` (src/server.js lines 127-133, the
same shape in every variant): `res.json` replies 200 with status "ok" and
reports each process as "running" exactly when the module-level handle
variable is non-null; the actual liveness (`exited`) of the referenced
process is never consulted. -/
def healthHandler (ytDlpProcess ffmpegProcess : Option ProcInfo) : HealthResp :=
  { httpStatus := 200
    status := "ok"
    ytDlp := match ytDlpProcess with | some _ => "running" | none => "stopped"
    ffmpeg := match ffmpegProcess with | some _ => "running" | none => "stopped" }

end ServerJs

namespace PartTwo

/-- State of the two module-level handle slots of src/unnamed/part_002
(lines 31-32), holding pids when non-null. -/
structure Handles where
  ytDlpProcess : Option Nat
  ffmpegProcess : Option Nat
deriving DecidableEq

/-- Embedding of `cleanup(processes)` (src/unnamed/part_002 lines 36-44):
for each non-null entry of the argument list it removes the stream
listeners and sends SIGTERM.  The module-level variables are NOT
assigned: the function only reads the list it is given. -/
def cleanup (processes : List (Option Nat)) : List Nat :=
  processes.filterMap fun p => p

/-- A call site of the cleanup path, `cleanup([ytDlpProcess,
ffmpegProcess])` (src/unnamed/part_002 lines 134, 140, 145, 178): the
module state is read but left unchanged, and the kill events are
returned. -/
def cleanupCall (s : Handles) : Handles × List Nat :=
  (s, cleanup [s.ytDlpProcess, s.ffmpegProcess])

/-- The cache artifact path for a video id,
`path.join(cacheDir, videoId + ".opus")` (src/unnamed/part_002 line 94). -/
def cacheFilePath (videoId : String) : String :=
  "cache/" ++ videoId ++ ".opus"

/-- What the per-source step writes to the response. -/
inductive Resp where
  | bytes (bs : List Nat)
  | transcodedFile (path : String)
  | serverError
deriving DecidableEq

/-- Result of processing one source in `startStreaming`
(src/unnamed/part_002): yt-dlp and ffmpeg spawn counts and the response
content. -/
structure SourceStep where
  ytSpawns : Nat
  ffSpawns : Nat
  resp : Resp
deriving DecidableEq

/-- Embedding of the body of the `limit` task in `startStreaming`
(src/unnamed/part_002 lines 91-152) for one source.  `fsys` maps a path
to the bytes of the file stored there (none if absent).  If the cache
file exists (line 96) the handler creates a read stream over it, sets the
Content-Type header and pipes the file bytes to the response, spawning no
process.  Otherwise `processVideo` spawns yt-dlp (`fetchOk` tells whether
it exits with code 0); on fetch failure the catch block answers 500 with
no ffmpeg spawned; on fetch success ffmpeg is spawned to transcode into
the cache path (`transcodeOk` is its exit status), after which the cache
file is streamed back, or 500 on failure. -/
def processSource (fsys : String → Option (List Nat)) (videoId : String)
    (fetchOk transcodeOk : Bool) : SourceStep :=
  match fsys (cacheFilePath videoId) with
  | some bs => { ytSpawns := 0, ffSpawns := 0, resp := Resp.bytes bs }
  | none =>
    if fetchOk then
      if transcodeOk then
        { ytSpawns := 1, ffSpawns := 1, resp := Resp.transcodedFile (cacheFilePath videoId) }
      else
        { ytSpawns := 1, ffSpawns := 1, resp := Resp.serverError }
    else
      { ytSpawns := 1, ffSpawns := 0, resp := Resp.serverError }

/-- A concrete file system with a single cached artifact, used to
instantiate theorems about the cache-hit path. -/
def exampleFsys : String → Option (List Nat) :=
  fun p => if p = "cache/abc.opus" then some [10, 20, 30] else none

end PartTwo

namespace MultiFile

/-- Observable events of `startStreaming` (src/multifile.js lines
88-130): admission of the fetch task for source `i` (the call
`retry(downloadAudio)(url, index)` made by `audioUrls.map` inside
`Promise.all`), completion of that task with its outcome, the single
`spawn("ffmpeg", ...)`, and the catch-block error response. -/
inductive Ev where
  | fetchStart (i : Nat)
  | fetchDone (i : Nat) (ok : Bool)
  | spawnTranscoder
  | errorResponse
deriving DecidableEq

/-- The fetch phase of `startStreaming`: `Promise.all(audioUrls.map(...))`
(src/multifile.js lines 91-93) calls the mapped function for every source
synchronously, in request order, before any of the returned promises is
awaited — so every fetch task starts before any completes.  `rs` lists
the final outcome of each source's fetch. -/
def mfFetchPhase (rs : List Bool) : List Ev :=
  ((List.range rs.length).map Ev.fetchStart)
    ++ (rs.enum.map fun p => Ev.fetchDone p.1 p.2)

/-- The full event trace of `startStreaming` (src/multifile.js lines
88-183): after `await Promise.all`, if every fetch resolved, the single
ffmpeg transcoder is spawned (line 98 or 115); if any fetch rejected, the
`catch` block (lines 178-182) answers 500 and ffmpeg is never spawned. -/
def mfTrace (rs : List Bool) : List Ev :=
  mfFetchPhase rs
    ++ (if rs.all (fun b => b) then [Ev.spawnTranscoder] else [Ev.errorResponse])

/-- Number of fetch tasks in flight after one event. -/
def stepConc (cur : Nat) : Ev → Nat
  | Ev.fetchStart _ => cur + 1
  | Ev.fetchDone _ _ => cur - 1
  | Ev.spawnTranscoder => cur
  | Ev.errorResponse => cur

/-- Peak number of concurrently running fetch tasks along a trace,
starting from `cur` in flight. -/
def peakConc (cur : Nat) : List Ev → Nat
  | [] => cur
  | e :: evs => max cur (peakConc (stepConc cur e) evs)

/-- Whether an event is the admission of a fetch task. -/
def isFetchStart : Ev → Bool
  | Ev.fetchStart _ => true
  | _ => false

/-- The subsequence of fetch-admission events of a trace. -/
def fetchStarts (evs : List Ev) : List Ev :=
  evs.filter isFetchStart

/-- Embedding of `fs.existsSync` over a file system modelled as the list
of existing file names. -/
def existsSync (fsys : List String) (f : String) : Bool :=
  f ∈ fsys

/-- Embedding of `fs.unlinkSync`: deletes the file, or throws an ENOENT
error when the file does not exist. -/
def unlinkSync (fsys : List String) (f : String) : Except String (List String) :=
  if f ∈ fsys then Except.ok (fsys.erase f) else Except.error "ENOENT"

/-- Embedding of the temp-file deletion block run by every exit path of
`startStreaming` (src/multifile.js lines 140-177):
`audioFiles.forEach((file) => fs.unlinkSync(file))` deletes each
downloaded audio file unguarded (the first missing file throws), and the
concat list file is deleted only if there were several sources and
`fs.existsSync("concat_list.txt")` holds. -/
def deleteJobFiles (audioFiles : List String) (fsys : List String) :
    Except String (List String) := do
  let fs1 ← audioFiles.foldlM (fun acc f => unlinkSync acc f) fsys
  if audioFiles.length > 1 && existsSync fs1 "concat_list.txt" then
    unlinkSync fs1 "concat_list.txt"
  else
    Except.ok fs1

/-- Decision taken by `app.get("/audio")` of src/multifile.js
(lines 185-203). -/
inductive AudioDecision where
  | badRequest (msg : String)
  | proceed (urls : List (List Char))
deriving DecidableEq

/-- Embedding of JavaScript `String.prototype.split(",")` over the
string's characters: splitting never yields an empty array — splitting
the empty string yields `[""]`. -/
def splitComma : List Char → List (List Char)
  | [] => [[]]
  | c :: rest =>
    let r := splitComma rest
    if c = ',' then [] :: r
    else
      match r with
      | [] => [[c]]
      | h :: t => (c :: h) :: t

/-- The YouTube URL built for one id (src/multifile.js line 196). -/
def mkUrl (id : List Char) : List Char :=
  "https://www.youtube.com/watch?v=".toList ++ id

/-- Embedding of `app.get("/audio")` (src/multifile.js lines 185-203):
a missing or empty `videoId` parameter (JavaScript `!videoIds`, the empty
string being falsy) yields 400; then `videoIds.split(",")` is checked for
length 0 (line 192) and 400 returned in that case; otherwise
`startStreaming` is invoked on the URLs in request order. -/
def audioEndpoint (videoIds : Option (List Char)) : AudioDecision :=
  match videoIds with
  | none => AudioDecision.badRequest "Video IDs are required"
  | some [] => AudioDecision.badRequest "Video IDs are required"
  | some s =>
    let ids := splitComma s
    if ids.length = 0 then AudioDecision.badRequest "At least one Video ID is required"
    else AudioDecision.proceed (ids.map mkUrl)

/-- The two ffmpeg invocation shapes of `startStreaming`
(src/multifile.js lines 95-130). -/
inductive Strategy where
  | singleFileDirect
  | concatList
deriving DecidableEq

/-- Embedding of the branch on `audioFiles.length === 1`
(src/multifile.js line 95): one downloaded file is streamed directly by
ffmpeg; otherwise a concat list file is written and ffmpeg reads the
virtual concatenation. -/
def chooseStrategy (audioFiles : List String) : Strategy :=
  if audioFiles.length = 1 then Strategy.singleFileDirect else Strategy.concatList

end MultiFile

namespace PartOne

/-- Maximum number of reconnection attempts, `const maxRetries = 5`
(src/unnamed/part_001 line 60). -/
def maxRetries : Nat := 5

/-- Initial delay before retrying in milliseconds, `const retryDelay =
1000` (src/unnamed/part_001 line 61). -/
def retryDelay : Nat := 1000

/-- What one firing of the reconnect logic does: schedule a retry after a
delay (milliseconds), or give up. -/
inductive CloseAction where
  | retryAfter (delayMs : Nat)
  | giveUp
deriving DecidableEq

/-- Embedding of the `res.on("close")` handler (src/unnamed/part_001
lines 136-148): after cleanup, if `attempt < maxRetries` a new
`attemptStreaming` is scheduled after `retryDelay * (2 ** attempt)`
milliseconds and `attempt` is incremented; otherwise the supervisor logs
that it gives up.  Returns the action together with the updated attempt
counter. -/
def onClose (attempt : Nat) : CloseAction × Nat :=
  if attempt < maxRetries then
    (CloseAction.retryAfter (retryDelay * 2 ^ attempt), attempt + 1)
  else
    (CloseAction.giveUp, attempt)

/-- The actions taken over a sequence of `n` close (client-disconnect)
events, threading the shared `attempt` counter. -/
def closeActionsAux : Nat → Nat → List CloseAction
  | 0, _ => []
  | Nat.succ n, attempt =>
    (onClose attempt).1 :: closeActionsAux n (onClose attempt).2

/-- The actions taken over `n` close events of one job, starting from the
initial `attempt = 0` (src/unnamed/part_001 line 59). -/
def closeActions (n : Nat) : List CloseAction :=
  closeActionsAux n 0

/-- The delay scheduled by an action, if it schedules a retry. -/
def delayOf : CloseAction → Option Nat
  | CloseAction.retryAfter d => some d
  | CloseAction.giveUp => none

/-- The delays of the retries actually scheduled. -/
def retryDelays (acts : List CloseAction) : List Nat :=
  acts.filterMap delayOf

/-- The response-sink state visible to the data handler: whether the HTTP
headers have been sent. -/
structure ResSink where
  headersSent : Bool
deriving DecidableEq

/-- Embedding of `res.write(chunk)`: writing flushes the headers if they
were not sent yet (so `headersSent` is true afterwards) and returns
whether the sink can accept more data immediately (`sinkReady`). -/
def resWrite (_s : ResSink) (sinkReady : Bool) : ResSink × Bool :=
  ({ headersSent := true }, sinkReady)

/-- Embedding of the `ffmpegProcess.stdout.on("data")` handler
(src/unnamed/part_001 lines 103-129), non-throwing case: the chunk is
written, and `ffmpegProcess.stdout.pause()` is called only when
`!res.write(chunk) && !res.headersSent` — the guard reads `headersSent`
after the write.  Returns the sink state and whether pause was called. -/
def onDataHandler (s : ResSink) (sinkReady : Bool) : ResSink × Bool :=
  let w := resWrite s sinkReady
  if !w.2 && !w.1.headersSent then (w.1, true) else (w.1, false)

end PartOne


/-
Helper lemmas (shared; not tied to any single claim).
-/

/-- The peak concurrency along a trace is at least the current count. -/
theorem le_peakConc (evs : List MultiFile.Ev) (cur : Nat) :
    cur ≤ MultiFile.peakConc cur evs := by
  induction evs generalizing cur with
  | nil => exact Nat.le_refl cur
  | cons e evs ih => exact le_max_left _ _

/-- Running a block of fetch-admission events raises the in-flight count
by the block's length; the peak is then determined by the rest. -/
theorem peakConc_starts (l : List Nat) (cur : Nat) (rest : List MultiFile.Ev) :
    MultiFile.peakConc cur ((l.map MultiFile.Ev.fetchStart) ++ rest)
      = MultiFile.peakConc (cur + l.length) rest := by
  induction l generalizing cur with
  | nil => simp [MultiFile.peakConc]
  | cons a l ih =>
    simp only [List.map_cons, List.cons_append, MultiFile.peakConc, MultiFile.stepConc,
      List.append_eq]
    rw [ih]
    have h1 : cur ≤ MultiFile.peakConc (cur + 1 + l.length) rest :=
      le_trans (by omega) (le_peakConc rest _)
    rw [max_eq_right h1]
    congr 1
    simp only [List.length_cons]
    omega

/-- Events that never increase the in-flight count leave the peak at the
current level. -/
theorem peakConc_noStart (evs : List MultiFile.Ev) (cur : Nat)
    (h : ∀ e ∈ evs, ∀ c : Nat, MultiFile.stepConc c e ≤ c) :
    MultiFile.peakConc cur evs = cur := by
  induction evs generalizing cur with
  | nil => rfl
  | cons e evs ih =>
    simp only [MultiFile.peakConc]
    rw [ih _ (fun x hx c => h x (List.mem_cons_of_mem _ hx) c)]
    exact max_eq_left (h e (List.mem_cons_self _ _) cur)

/-- The peak fetch concurrency of the multifile.js trace is the number of
sources: Promise.all admits every fetch before any completes. -/
theorem peakConc_mfTrace (rs : List Bool) :
    MultiFile.peakConc 0 (MultiFile.mfTrace rs) = rs.length := by
  have hrest : ∀ e ∈ (rs.enum.map fun p => MultiFile.Ev.fetchDone p.1 p.2)
      ++ (if rs.all (fun b => b) then [MultiFile.Ev.spawnTranscoder]
          else [MultiFile.Ev.errorResponse]),
      ∀ c : Nat, MultiFile.stepConc c e ≤ c := by
    intro e he c
    rcases List.mem_append.mp he with h1 | h1
    · rcases List.mem_map.mp h1 with ⟨p, _, rfl⟩
      simp [MultiFile.stepConc]
    · have h2 : e = MultiFile.Ev.spawnTranscoder ∨ e = MultiFile.Ev.errorResponse := by
        by_cases hall : rs.all (fun b => b) = true
        · simp [hall] at h1
          exact Or.inl h1
        · simp [hall] at h1
          exact Or.inr h1
      rcases h2 with rfl | rfl <;> simp [MultiFile.stepConc]
  unfold MultiFile.mfTrace MultiFile.mfFetchPhase
  rw [List.append_assoc, peakConc_starts, peakConc_noStart _ _ hrest]
  simp

/-- The fetch-admission events of the multifile.js trace are exactly the
N admissions, in request order. -/
theorem fetchStarts_mfTrace (rs : List Bool) :
    MultiFile.fetchStarts (MultiFile.mfTrace rs)
      = (List.range rs.length).map MultiFile.Ev.fetchStart := by
  unfold MultiFile.mfTrace MultiFile.mfFetchPhase MultiFile.fetchStarts
  rw [List.append_assoc, List.filter_append, List.filter_append]
  have h1 : ((List.range rs.length).map MultiFile.Ev.fetchStart).filter MultiFile.isFetchStart
      = (List.range rs.length).map MultiFile.Ev.fetchStart := by
    apply List.filter_eq_self.mpr
    intro a ha
    rcases List.mem_map.mp ha with ⟨i, _, rfl⟩
    rfl
  have h2 : (rs.enum.map fun p => MultiFile.Ev.fetchDone p.1 p.2).filter MultiFile.isFetchStart
      = [] := by
    apply List.filter_eq_nil_iff.mpr
    intro a ha
    rcases List.mem_map.mp ha with ⟨p, _, rfl⟩
    simp [MultiFile.isFetchStart]
  have h3 : (if rs.all (fun b => b) then [MultiFile.Ev.spawnTranscoder]
      else [MultiFile.Ev.errorResponse]).filter MultiFile.isFetchStart = [] := by
    by_cases hall : rs.all (fun b => b) = true <;>
      simp [hall, MultiFile.isFetchStart]
  rw [h1, h2, h3]
  simp

/-- The transcoder-spawn event occurs in the multifile.js trace exactly
when every fetch succeeded. -/
theorem spawnTranscoder_mem_mfTrace (rs : List Bool) :
    MultiFile.Ev.spawnTranscoder ∈ MultiFile.mfTrace rs
      ↔ rs.all (fun b => b) = true := by
  unfold MultiFile.mfTrace MultiFile.mfFetchPhase
  by_cases hall : rs.all (fun b => b) = true <;>
    simp [hall, List.mem_append, List.mem_map]

/-- Characterization of the reconnect loop of part_001: starting from
`attempt`, the first `5 - attempt` close events schedule retries with
exponentially growing delays and every later close event gives up. -/
theorem closeActionsAux_eq (n : Nat) : ∀ attempt : Nat, attempt ≤ 5 →
    PartOne.closeActionsAux n attempt =
      ((List.range' attempt (min n (5 - attempt))).map
        fun i => PartOne.CloseAction.retryAfter (1000 * 2 ^ i))
      ++ List.replicate (n - (5 - attempt)) PartOne.CloseAction.giveUp := by
  induction n with
  | zero =>
    intro attempt _
    simp [PartOne.closeActionsAux]
  | succ n ih =>
    intro attempt hatt
    by_cases hlt : attempt < 5
    · have h5 : 5 - attempt = (4 - attempt) + 1 := by omega
      have hmin : min (n + 1) ((4 - attempt) + 1) = min n (4 - attempt) + 1 :=
        Nat.succ_min_succ n (4 - attempt)
      simp only [PartOne.closeActionsAux, PartOne.onClose, PartOne.maxRetries,
        PartOne.retryDelay, if_pos hlt]
      rw [ih (attempt + 1) (by omega)]
      rw [h5, hmin, List.range'_succ, List.map_cons]
      have h1 : 5 - (attempt + 1) = 4 - attempt := by omega
      have h2 : (n + 1) - ((4 - attempt) + 1) = n - (4 - attempt) := by omega
      rw [h1, h2]
      simp
    · have h5 : attempt = 5 := by omega
      subst h5
      simp only [PartOne.closeActionsAux, PartOne.onClose, PartOne.maxRetries,
        if_neg hlt]
      rw [ih 5 (Nat.le_refl 5)]
      simp [List.replicate_succ]

/-- Extracting the scheduled delays from a block of retry actions. -/
theorem filterMap_delay_map (l : List Nat) :
    (l.map fun i => PartOne.CloseAction.retryAfter (1000 * 2 ^ i)).filterMap PartOne.delayOf
      = l.map fun i => 1000 * 2 ^ i := by
  induction l with
  | nil => rfl
  | cons a l ih => simp [PartOne.delayOf, ih]

/-- A block of give-up actions schedules no delay. -/
theorem filterMap_delay_replicate (m : Nat) :
    (List.replicate m PartOne.CloseAction.giveUp).filterMap PartOne.delayOf = [] := by
  induction m with
  | zero => rfl
  | succ m ih => simp [List.replicate_succ, PartOne.delayOf, ih]

/-- The delays scheduled over any number of client disconnects. -/
theorem retryDelays_closeActions (n : Nat) :
    PartOne.retryDelays (PartOne.closeActions n)
      = (List.range (min n 5)).map fun i => 1000 * 2 ^ i := by
  unfold PartOne.closeActions PartOne.retryDelays
  rw [closeActionsAux_eq n 0 (by omega)]
  rw [List.filterMap_append, filterMap_delay_map, filterMap_delay_replicate]
  rw [List.range_eq_range']
  simp

/-- Splitting a character list at commas never yields an empty list of
fragments (JavaScript split never returns an empty array). -/
theorem splitComma_ne_nil (l : List Char) : MultiFile.splitComma l ≠ [] := by
  induction l with
  | nil => simp [MultiFile.splitComma]
  | cons c rest ih =>
    simp only [MultiFile.splitComma]
    by_cases hc : c = ','
    · simp [hc]
    · simp only [if_neg hc]
      cases h : MultiFile.splitComma rest with
      | nil => exact absurd h ih
      | cons a t => simp

/-
Claim theorems.
-/

/-- C1 (counterexample): in the part_002 variant the claim fails — the
cleanup path does not clear the module-level handles, so invoking it
twice (process error plus client disconnect) sends SIGTERM to process 1
twice, not exactly once. -/
theorem C1_counterexample :
    (PartTwo.cleanupCall (PartTwo.cleanupCall ⟨some 1, some 2⟩).1).1
      = (⟨some 1, some 2⟩ : PartTwo.Handles) ∧
    ((PartTwo.cleanupCall ⟨some 1, some 2⟩).2
      ++ (PartTwo.cleanupCall (PartTwo.cleanupCall ⟨some 1, some 2⟩).1).2).count 1 = 2 :=
  ⟨rfl, rfl⟩

/-- C1 (amended): in src/server.js the cleanup path is idempotent — the
first call signals exactly the owned non-null handles and nulls both
slots, and a second call is a no-op sending no signal; in the part_002
variant, however, cleanup leaves the module handles untouched, so a
second invocation re-sends the termination signal. -/
theorem C1_cleanup_idempotent (s : ServerJs.Handles) (t : PartTwo.Handles) :
    (ServerJs.cleanup s).2 = s.ytDlpProcess.toList ++ s.ffmpegProcess.toList ∧
    ServerJs.cleanup (ServerJs.cleanup s).1 = ((ServerJs.cleanup s).1, []) ∧
    (PartTwo.cleanupCall t).1 = t := by
  refine ⟨?_, ?_, rfl⟩
  · rcases s with ⟨yt, ff⟩
    cases yt <;> cases ff <;> rfl
  · rcases s with ⟨yt, ff⟩
    cases yt <;> cases ff <;> rfl

/-- C2 (counterexample): for a two-source request, multifile.js admits
both fetches at once through Promise.all, so the peak number of
concurrently running fetches is 2, exceeding the claimed admission bound
K = 1. -/
theorem C2_counterexample :
    MultiFile.peakConc 0 (MultiFile.mfTrace [true, true]) = 2 ∧ 1 < 2 :=
  ⟨rfl, by omega⟩

/-- C2 (amended): for every multi-identifier request with N sources,
exactly N fetch tasks are admitted, in request order, but all at once
(peak concurrency N — there is no K = 1 admission limiter on this path);
the single transcoder process is spawned only after every fetch has
completed successfully, and if any fetch fails the transcoder is never
spawned. -/
theorem C2_fetch_then_single_transcoder (rs : List Bool) :
    (MultiFile.fetchStarts (MultiFile.mfTrace rs)).length = rs.length ∧
    MultiFile.fetchStarts (MultiFile.mfTrace rs)
      = (List.range rs.length).map MultiFile.Ev.fetchStart ∧
    MultiFile.peakConc 0 (MultiFile.mfTrace rs) = rs.length ∧
    (rs.all (fun b => b) = true →
      MultiFile.mfTrace rs = MultiFile.mfFetchPhase rs ++ [MultiFile.Ev.spawnTranscoder]) ∧
    (rs.all (fun b => b) = false →
      MultiFile.Ev.spawnTranscoder ∉ MultiFile.mfTrace rs) := by
  refine ⟨?_, fetchStarts_mfTrace rs, peakConc_mfTrace rs, ?_, ?_⟩
  · rw [fetchStarts_mfTrace rs]
    simp
  · intro hall
    unfold MultiFile.mfTrace
    rw [if_pos hall]
  · intro hall
    rw [spawnTranscoder_mem_mfTrace rs, hall]
    simp

/-- C2 (witness): concrete instances of the amended claim at two-source
requests. -/
theorem C2_fetch_then_single_transcoder_witness :
    MultiFile.mfTrace [true, true]
      = MultiFile.mfFetchPhase [true, true] ++ [MultiFile.Ev.spawnTranscoder] ∧
    MultiFile.peakConc 0 (MultiFile.mfTrace [true, true]) = 2 ∧
    MultiFile.Ev.spawnTranscoder ∉ MultiFile.mfTrace [true, false] :=
  ⟨(C2_fetch_then_single_transcoder [true, true]).2.2.2.1 rfl,
   (C2_fetch_then_single_transcoder [true, true]).2.2.1,
   (C2_fetch_then_single_transcoder [true, false]).2.2.2.2 rfl⟩

/-- C3 (counterexample): the module-level handle slots of src/server.js
are overwritten by a second request — after job 1 the yt-dlp slot held
job 1's process (pid 0), after job 2 it holds job 2's (pid 2), and the
cleanup fired by either job signals only job 2's processes. -/
theorem C3_counterexample :
    (ServerJs.audioSpawn 1 ServerJs.srvInit).ytDlpSlot = some (0, 1) ∧
    (ServerJs.audioSpawn 2 (ServerJs.audioSpawn 1 ServerJs.srvInit)).ytDlpSlot
      = some (2, 2) ∧
    (ServerJs.cleanupSlots
        (ServerJs.audioSpawn 2 (ServerJs.audioSpawn 1 ServerJs.srvInit))).2
      = [(2, 2), (3, 2)] ∧
    (2 : Nat) ≠ 1 :=
  ⟨rfl, rfl, rfl, by omega⟩

/-- C3 (amended): each /audio request of src/server.js spawns exactly one
fetcher/transcoder handle pair, but both handles live in module-level
variables shared by all requests: a second request overwrites them while
the first may still be active, and a cleanup — fired by any job's event
handler — always signals whichever pair the module slots currently
reference. -/
theorem C3_module_level_handles (j j2 : Nat) (s : ServerJs.Srv) :
    (ServerJs.audioSpawn j s).ytDlpSlot = some (s.nextPid, j) ∧
    (ServerJs.audioSpawn j s).ffmpegSlot = some (s.nextPid + 1, j) ∧
    (ServerJs.audioSpawn j2 (ServerJs.audioSpawn j s)).ytDlpSlot
      = some (s.nextPid + 2, j2) ∧
    (ServerJs.audioSpawn j2 (ServerJs.audioSpawn j s)).ffmpegSlot
      = some (s.nextPid + 2 + 1, j2) ∧
    (ServerJs.cleanupSlots (ServerJs.audioSpawn j s)).2
      = [(s.nextPid, j), (s.nextPid + 1, j)] :=
  ⟨rfl, rfl, rfl, rfl, rfl⟩

/-- C4 (counterexample): for the request GET /audio?videoId=abc with
format opus, src/server.js sets Content-Type to the fixed literal
audio/mpeg, which differs from audio/opus. -/
theorem C4_counterexample :
    (ServerJs.audioHandler ⟨some "abc", some "opus"⟩).contentType = some "audio/mpeg" ∧
    some "audio/mpeg" ≠ some ("audio/" ++ "opus") :=
  ⟨rfl, by decide⟩

/-- C4 (amended): for every valid single-identifier request, exactly one
fetcher and one transcoder process are spawned, but the format query
parameter is ignored and the Content-Type header is always the fixed
literal audio/mpeg, not audio/<format>. -/
theorem C4_fixed_content_type (id : String) (fmt : Option String) (h : id ≠ "") :
    ServerJs.audioHandler ⟨some id, fmt⟩
      = { status := 200, contentType := some "audio/mpeg", ytSpawns := 1, ffSpawns := 1 } := by
  simp [ServerJs.audioHandler, h]

/-- C4 (witness): the amended claim at the concrete request
videoId=abc, format=opus. -/
theorem C4_fixed_content_type_witness :
    ServerJs.audioHandler ⟨some "abc", some "opus"⟩
      = { status := 200, contentType := some "audio/mpeg", ytSpawns := 1, ffSpawns := 1 } :=
  C4_fixed_content_type "abc" (some "opus") (by decide)

/-- The scheduled backoff delays are strictly increasing in the attempt
number. -/
theorem chain_lt_delays (k : Nat) :
    List.Chain' (fun a b => a < b) ((List.range k).map fun i => 1000 * 2 ^ i) := by
  rw [List.chain'_map]
  cases k with
  | zero => simp
  | succ m =>
    rw [List.chain'_range_succ]
    intro i _
    have h2 : (2 : Nat) ^ i < 2 ^ (i + 1) := Nat.pow_lt_pow_succ (by omega)
    omega

/-- C5: over any number of client disconnects, the supervisor of
part_001 schedules at most 5 reconnection attempts, the delays before
them are exactly 1000 * 2 ^ attempt milliseconds (1s, 2s, 4s, 8s, 16s),
they are strictly increasing, and every close event after the 5th retry
gives up with no further attempt. -/
theorem C5_bounded_exponential_backoff (n : Nat) :
    (PartOne.retryDelays (PartOne.closeActions n)).length ≤ 5 ∧
    PartOne.retryDelays (PartOne.closeActions n)
      = (List.range (min n 5)).map (fun i => 1000 * 2 ^ i) ∧
    List.Chain' (fun a b => a < b) (PartOne.retryDelays (PartOne.closeActions n)) ∧
    (PartOne.closeActions n).drop 5
      = List.replicate (n - 5) PartOne.CloseAction.giveUp := by
  refine ⟨?_, retryDelays_closeActions n, ?_, ?_⟩
  · rw [retryDelays_closeActions n]
    simp [Nat.min_le_right]
  · rw [retryDelays_closeActions n]
    exact chain_lt_delays (min n 5)
  · unfold PartOne.closeActions
    rw [closeActionsAux_eq n 0 (by omega)]
    have hlen : (((List.range' 0 (min n 5)).map
        fun i => PartOne.CloseAction.retryAfter (1000 * 2 ^ i))).length = min n 5 := by
      simp
    rw [List.drop_append_eq_append_drop, hlen]
    rcases Nat.le_total n 5 with h | h
    · rw [List.drop_eq_nil_of_le (by rw [hlen]; omega)]
      have h0 : n - 5 = 0 := by omega
      simp [h0]
    · have h5 : min n 5 = 5 := by omega
      rw [List.drop_eq_nil_of_le (by rw [hlen, h5])]
      rw [h5]
      simp

/-- C6: the backpressure pause of part_001 is unreachable — `res.write`
flushes the headers, so when the guard `!res.write(chunk) &&
!res.headersSent` is evaluated the headers are always already sent and
`ffmpegProcess.stdout.pause()` is never called, for every sink state and
every not-ready signal; the code's own "Pausing ffmpeg stdout due to
backpressure" log documents the intended pause that never happens. -/
theorem C6_pause_unreachable (s : PartOne.ResSink) (sinkReady : Bool) :
    (PartOne.onDataHandler s sinkReady).2 = false ∧
    (PartOne.onDataHandler s sinkReady).1.headersSent = true := by
  cases sinkReady <;> exact ⟨rfl, rfl⟩

/-- C7: a request whose cache artifact exists spawns zero yt-dlp and zero
ffmpeg processes, and the bytes piped to the response are exactly the
bytes of the cached file. -/
theorem C7_cache_hit_no_spawn (fsys : String → Option (List Nat)) (videoId : String)
    (bs : List Nat) (fetchOk transcodeOk : Bool)
    (h : fsys (PartTwo.cacheFilePath videoId) = some bs) :
    PartTwo.processSource fsys videoId fetchOk transcodeOk
      = { ytSpawns := 0, ffSpawns := 0, resp := PartTwo.Resp.bytes bs } := by
  unfold PartTwo.processSource
  rw [h]

/-- C7 (witness): the cache-hit path at a concrete file system holding
the artifact cache/abc.opus with bytes [10, 20, 30]. -/
theorem C7_cache_hit_no_spawn_witness :
    PartTwo.processSource PartTwo.exampleFsys "abc" true true
      = { ytSpawns := 0, ffSpawns := 0, resp := PartTwo.Resp.bytes [10, 20, 30] } :=
  C7_cache_hit_no_spawn PartTwo.exampleFsys "abc" [10, 20, 30] true true (by decide)

/-- C8: running the multifile.js temp-file deletion block of one exit
path deletes every temp file and the concat list, but a second exit path
running the same block then hits `fs.unlinkSync` on the already-missing
audio file and throws ENOENT — only the concat list is guarded by
`fs.existsSync`, so a missing-file deletion attempt is not tolerated. -/
theorem C8_second_deletion_throws :
    MultiFile.deleteJobFiles ["audio0.m4a", "audio1.m4a"]
      ["audio0.m4a", "audio1.m4a", "concat_list.txt"] = Except.ok [] ∧
    MultiFile.deleteJobFiles ["audio0.m4a", "audio1.m4a"] [] = Except.error "ENOENT" :=
  ⟨rfl, rfl⟩

/-- C9 (counterexample): a single identifier submitted through the
multi-source endpoint is not rejected — `"abc".split(",")` yields one
id, the handler proceeds, and `startStreaming` silently uses the
single-file direct ffmpeg branch. -/
theorem C9_counterexample :
    MultiFile.audioEndpoint (some ['a', 'b', 'c'])
      = MultiFile.AudioDecision.proceed [MultiFile.mkUrl ['a', 'b', 'c']] ∧
    MultiFile.chooseStrategy ["audio0.m4a"] = MultiFile.Strategy.singleFileDirect :=
  ⟨by decide, rfl⟩

/-- C9 (amended): the multi-source endpoint rejects only a missing or
empty videoId parameter; every non-empty identifier string — including a
single identifier — proceeds, because a split never yields an empty
array and there is no at-least-two check, and a single downloaded file is
then streamed through the single-file direct ffmpeg branch rather than
being rejected with a client error. -/
theorem C9_single_source_fallback (s : List Char) (hs : s ≠ []) :
    (∃ urls, MultiFile.audioEndpoint (some s) = MultiFile.AudioDecision.proceed urls) ∧
    (∀ f : String, MultiFile.chooseStrategy [f] = MultiFile.Strategy.singleFileDirect) := by
  constructor
  · cases s with
    | nil => exact absurd rfl hs
    | cons c rest =>
      refine ⟨(MultiFile.splitComma (c :: rest)).map MultiFile.mkUrl, ?_⟩
      have h := splitComma_ne_nil (c :: rest)
      simp only [MultiFile.audioEndpoint]
      rw [if_neg (by simpa [List.length_eq_zero] using h)]
  · intro f
    rfl

/-- C9 (witness): the amended claim at the concrete single-identifier
request videoId=a. -/
theorem C9_single_source_fallback_witness :
    (∃ urls, MultiFile.audioEndpoint (some ['a'])
      = MultiFile.AudioDecision.proceed urls) ∧
    MultiFile.chooseStrategy ["audio0.m4a"] = MultiFile.Strategy.singleFileDirect :=
  ⟨(C9_single_source_fallback ['a'] (by decide)).1,
   (C9_single_source_fallback ['a'] (by decide)).2 "audio0.m4a"⟩

/-- C10: for every state of the module-level handle variables, GET
/health responds 200 with status "ok" and reports a process as "running"
exactly when the corresponding handle variable is non-null — in
particular, a referenced process that has already exited but has not been
cleaned up is still reported as "running". -/
theorem C10_health_reports_handle_nullness (yt ff : Option ServerJs.ProcInfo) :
    (ServerJs.healthHandler yt ff).httpStatus = 200 ∧
    (ServerJs.healthHandler yt ff).status = "ok" ∧
    ((ServerJs.healthHandler yt ff).ytDlp = "running" ↔ yt.isSome = true) ∧
    ((ServerJs.healthHandler yt ff).ffmpeg = "running" ↔ ff.isSome = true) ∧
    (∀ p : ServerJs.ProcInfo, (ServerJs.healthHandler (some p) ff).ytDlp = "running") := by
  refine ⟨rfl, rfl, ?_, ?_, fun p => rfl⟩
  · cases yt <;> simp [ServerJs.healthHandler]
  · cases ff <;> simp [ServerJs.healthHandler]
